import Mathlib

/-!
# Verification of the XAUUSD gold analytics pipeline

Shallow embedding of the data-loading and derived-metrics pipeline of
`src/main.py` (a single-page dashboard over a precomputed "gold" feature
table), together with proofs of the specification's claims about it.

Modelling conventions:

* pandas scalar cells that may be missing (`NaN`) are modelled as
  `Option ℚ` with `none` standing for `NaN`; exact numeric values are
  idealised as rationals.
* the floating-point square root (`np.sqrt`, and the square root taken
  inside `Series.std`) is an abstract parameter `sq : ℚ → ℚ`; every
  theorem involving it is universally quantified over `sq`.
* a dataframe is a list of typed rows; a pandas boolean mask is a
  `List Bool` aligned positionally with the rows, and `df.loc[mask]`
  keeps the rows at the positions where the mask holds.
* the object store (`Minio.get_object`) and the parquet decoder
  (`pd.read_parquet`) are external collaborators; they enter the
  embedding as parameters of `load_gold`: a fetch function returning a
  `StoreResult` and a decoder returning `Option RawFrame` (`none` when
  the byte buffer does not decode).
* all values here are immutable; the rebinding of the script's variables
  around lines 92-93 is made explicit as a state-passing step
  (`runFilterStep`) on the script's variable environment.
-/

namespace XauUsd

/-- Calendar dates (`datetime.date` values), idealised as day numbers. -/
abbrev Date := Int

/-- A timezone-naive instant (`pandas.Timestamp`): a calendar date plus a
time-of-day component.  The `.dt.date` truncation used by the period filter
keeps only the `date` field. -/
structure Timestamp where
  date : Date
  tod : Nat
deriving DecidableEq

/-- Comparison of instants: lexicographic on (calendar date, time of day).
This is the ascending order `df.sort_values("timestamp")` sorts by. -/
def tsLe (a b : Timestamp) : Bool :=
  decide (a.date < b.date) ||
    (decide (a.date = b.date) && decide (a.tod ≤ b.tod))

/-- One row of the gold feature table (the spec's `FeatureRow`).  The Python
column `return` is a reserved word in Lean, so the field is named `ret`.
`ret`, `ma20`, `ma50` may be missing (`NaN`) on leading rows. -/
structure Row where
  timestamp : Timestamp
  close : ℚ
  ret : Option ℚ
  cum_return : ℚ
  ma20 : Option ℚ
  ma50 : Option ℚ
deriving DecidableEq

/-- Row comparison by timestamp, as a binary relation on rows: the order the
loader sorts the table by. -/
def tsRowLe (a b : Row) : Prop :=
  tsLe a.timestamp b.timestamp = true

instance : DecidableRel tsRowLe := fun a b => by
  unfold tsRowLe
  infer_instance

/-- Line 25: the bucket name used for every store access. -/
def BUCKET_NAME : String := "xau-lake"

/-- Line 43: the object key derived from the timeframe,
`f"gold/timeframe={timeframe}/XAU_{timeframe}_features.parquet"` — the
timeframe token is inserted twice, verbatim. -/
def object_key (timeframe : String) : String :=
  "gold/timeframe=" ++ timeframe ++ "/XAU_" ++ timeframe ++ "_features.parquet"

/-- Outcome of `client.get_object` on the store: the object is absent, the
store is unreachable, or a byte body is returned. -/
inductive StoreResult (β : Type) where
  | notFound : StoreResult β
  | connErr : StoreResult β
  | ok (body : β) : StoreResult β

/-- The failure taxonomy of the loader, as named by the specification. -/
inductive LoadError where
  | notFoundError : LoadError
  | connectionError : LoadError
  | malformedDataError : LoadError
deriving DecidableEq

/-- Result of `pd.read_parquet` on a decodable buffer: the set of column
names present, and the typed content of the columns the script consumes.
A column access `df[c]` fails (Python `KeyError`) iff `c ∉ colNames`. -/
structure RawFrame where
  colNames : List String
  rows : List Row

/-- Line 55: `df.sort_values("timestamp")` — sort the rows ascending by
timestamp (modelled by insertion sort; the claims only depend on the
result being sorted). -/
def sortByTimestamp (rows : List Row) : List Row :=
  rows.insertionSort tsRowLe

/-- Lines 32-57, `load_gold`: fetch the object at the derived key from the
store, decode the buffer, normalise the `timestamp` column and sort by it.
`fetch` models `client.get_object` (applied to bucket and key) and
`readParquet` models `pd.read_parquet`.  A fetch failure surfaces as the
corresponding `LoadError`; an undecodable buffer or a frame without a
`timestamp` column surfaces as `malformedDataError` (in the script: the
decoder raising, or the `df["timestamp"]` access raising `KeyError`).
No check of the `close` column happens here. -/
def load_gold {β : Type} (fetch : String → String → StoreResult β)
    (readParquet : β → Option RawFrame) (timeframe : String) :
    Except LoadError (List Row) :=
  match fetch BUCKET_NAME (object_key timeframe) with
  | .notFound => .error .notFoundError
  | .connErr => .error .connectionError
  | .ok body =>
    match readParquet body with
    | none => .error .malformedDataError
    | some f =>
      if "timestamp" ∈ f.colNames then .ok (sortByTimestamp f.rows)
      else .error .malformedDataError

/-- The pointwise predicate of line 92's vectorised comparison:
`(df["timestamp"].dt.date >= start_date) & (df["timestamp"].dt.date <= end_date)`
at one row. -/
def maskFun (start_date end_date : Date) (r : Row) : Bool :=
  decide (start_date ≤ r.timestamp.date) && decide (r.timestamp.date ≤ end_date)

/-- Line 92: the boolean mask, one entry per row of `df`. -/
def mask (df : List Row) (start_date end_date : Date) : List Bool :=
  df.map (maskFun start_date end_date)

/-- `df.loc[m]` for a boolean mask `m` aligned with `df`: the rows at the
positions where the mask is `true`, in their original order. -/
def loc (df : List Row) (m : List Bool) : List Row :=
  (df.zip m).filterMap fun rb => if rb.2 then some rb.1 else none

/-- Line 93: `df_period = df.loc[mask].copy()` — the filtered table.  The
`.copy()` produces a fresh value, so `df_period` shares nothing mutable
with `df`. -/
def df_period (df : List Row) (start_date end_date : Date) : List Row :=
  loc df (mask df start_date end_date)

/-- The script's variable environment around lines 92-93: the loaded frame
`df` and the filtered frame bound to `df_period`. -/
structure ScriptState where
  df : List Row
  period : List Row
deriving DecidableEq

/-- Lines 92-93 as a step on the script's environment: recompute the mask
from the current `df` and rebind `df_period` to the fresh filtered copy;
`df` itself is only read. -/
def runFilterStep (st : ScriptState) (start_date end_date : Date) : ScriptState :=
  { df := st.df, period := df_period st.df start_date end_date }

/-- `Series.dropna()`: the non-missing values, in order. -/
def dropna (xs : List (Option ℚ)) : List ℚ :=
  xs.filterMap id

/-- Arithmetic mean of a list of rationals (pandas mean of a series). -/
def mean (xs : List ℚ) : ℚ :=
  xs.sum / xs.length

/-- Sum of squared deviations from the mean. -/
def sqDev (xs : List ℚ) : ℚ :=
  (xs.map fun x => (x - mean xs) ^ 2).sum

/-- Model of `pandas.Series.std()` with its default `ddof=1`: the sample
standard deviation `sqrt(Σ(x-mean)² / (n-1))`, which is `NaN` (`none`)
when fewer than two values are present.  `sq` abstracts the
floating-point square root. -/
def seriesStd (sq : ℚ → ℚ) (xs : List ℚ) : Option ℚ :=
  if xs.length < 2 then none
  else some (sq (sqDev xs / ((xs.length : ℚ) - 1)))

/-- The headline figures computed by lines 115-121 (the spec's
`SummaryMetrics`).  `cumRetMultiple` is the displayed
`(1 + cum_ret)` multiple; `daily_vol` and `annual_vol` are `none` when the
pandas computation yields `NaN`. -/
structure Metrics where
  cum_ret : ℚ
  cumRetMultiple : ℚ
  close_min : ℚ
  close_max : ℚ
  daily_vol : Option ℚ
  annual_vol : Option ℚ
deriving DecidableEq

/-- Lines 115-121, the metric computations of the non-empty branch, on the
non-empty filtered frame `r :: rs`:
`cum_ret = df_period["cum_return"].iloc[-1]`,
`close_min/close_max = df_period["close"].min()/.max()`,
`returns = df_period["return"].dropna()`, `daily_vol = returns.std()`,
`annual_vol = daily_vol * np.sqrt(252)` (`NaN` propagates through the
product). -/
def summarize (sq : ℚ → ℚ) (r : Row) (rs : List Row) : Metrics :=
  let dfp := r :: rs
  let cum_ret := (dfp.getLast (List.cons_ne_nil r rs)).cum_return
  let returns := dropna (dfp.map fun x => x.ret)
  let daily_vol := seriesStd sq returns
  { cum_ret := cum_ret
    cumRetMultiple := 1 + cum_ret
    close_min := List.foldl min r.close (rs.map fun x => x.close)
    close_max := List.foldl max r.close (rs.map fun x => x.close)
    daily_vol := daily_vol
    annual_vol := daily_vol.map fun v => v * sq 252 }

/-- Outcome of the KPI block: either the metrics are computed and shown, or
the empty-selection warning is shown and the script stops.  The two
constructors are distinct, so the empty selection is a distinguishable
non-error outcome. -/
inductive Outcome where
  | metrics (m : Metrics) : Outcome
  | emptyWarning : Outcome
deriving DecidableEq

/-- Lines 114-150: `if not df_period.empty:` compute and display the four
metrics from `df_period`, `else:` show the warning and stop. -/
def overviewKpis (sq : ℚ → ℚ) (dfp : List Row) : Outcome :=
  match dfp with
  | [] => .emptyWarning
  | r :: rs => .metrics (summarize sq r rs)

/-- Sample row 1 of the specification's known-input test vector
(§8: `close=[10,12,9]`, `return=[NaN,0.2,-0.25]`, `cum_return=[0,0.2,-0.1]`). -/
def sRow1 : Row :=
  ⟨⟨0, 0⟩, 10, none, 0, none, none⟩

/-- Sample row 2 of the specification's known-input test vector. -/
def sRow2 : Row :=
  ⟨⟨1, 0⟩, 12, some (1 / 5), 1 / 5, none, none⟩

/-- Sample row 3 of the specification's known-input test vector. -/
def sRow3 : Row :=
  ⟨⟨2, 0⟩, 9, some (-(1 / 4)), -(1 / 10), none, none⟩

/-! ## Helper lemmas (shared between claims) -/

/-- The instant order is total. -/
theorem tsLe_total (a b : Timestamp) : tsLe a b || tsLe b a := by
  simp only [tsLe, Bool.or_eq_true, Bool.and_eq_true, decide_eq_true_eq]
  rcases lt_trichotomy a.date b.date with h | h | h
  · exact Or.inl (Or.inl h)
  · rcases Nat.le_total a.tod b.tod with h2 | h2
    · exact Or.inl (Or.inr ⟨h, h2⟩)
    · exact Or.inr (Or.inr ⟨h.symm, h2⟩)
  · exact Or.inr (Or.inl h)

/-- The instant order is transitive. -/
theorem tsLe_trans (a b c : Timestamp) (hab : tsLe a b = true)
    (hbc : tsLe b c = true) : tsLe a c = true := by
  simp only [tsLe, Bool.or_eq_true, Bool.and_eq_true, decide_eq_true_eq] at *
  rcases hab with h1 | ⟨h1, h1t⟩ <;> rcases hbc with h2 | ⟨h2, h2t⟩
  · exact Or.inl (h1.trans h2)
  · exact Or.inl (h2 ▸ h1)
  · exact Or.inl (h1 ▸ h2)
  · exact Or.inr ⟨h1.trans h2, h1t.trans h2t⟩

instance : IsTotal Row tsRowLe :=
  ⟨fun a b => by
    have h := tsLe_total a.timestamp b.timestamp
    rcases Bool.or_eq_true _ _ |>.mp h with h1 | h1
    · exact Or.inl h1
    · exact Or.inr h1⟩

instance : IsTrans Row tsRowLe :=
  ⟨fun a b c hab hbc => tsLe_trans _ _ _ hab hbc⟩

/-- Selecting with the mask of a pointwise predicate is `List.filter`. -/
theorem loc_map_eq_filter (p : Row → Bool) (df : List Row) :
    loc df (df.map p) = df.filter p := by
  induction df with
  | nil => rfl
  | cons a l ih =>
    cases hpa : p a <;>
      simp [loc, List.filter_cons, hpa] at * <;>
      simp [ih]

/-- The two-line mask/select of the script equals a single filter by the
pointwise predicate. -/
theorem df_period_eq_filter (df : List Row) (s e : Date) :
    df_period df s e = df.filter (maskFun s e) :=
  loc_map_eq_filter (maskFun s e) df

/-- The pointwise mask predicate holds iff the row's calendar date lies in
the inclusive range. -/
theorem maskFun_eq_true_iff (s e : Date) (r : Row) :
    maskFun s e r = true ↔ s ≤ r.timestamp.date ∧ r.timestamp.date ≤ e := by
  simp [maskFun]

/-- The filtered table is empty iff no row's date lies in the range. -/
theorem df_period_eq_nil_iff (df : List Row) (s e : Date) :
    df_period df s e = [] ↔
      ∀ r ∈ df, ¬(s ≤ r.timestamp.date ∧ r.timestamp.date ≤ e) := by
  rw [df_period_eq_filter, List.filter_eq_nil_iff]
  simp [maskFun_eq_true_iff]

/-- The loader succeeds exactly on a fetched, decodable buffer whose frame
has a `timestamp` column, and then returns all decoded rows sorted. -/
theorem load_gold_ok_iff {β : Type} (fetch : String → String → StoreResult β)
    (readParquet : β → Option RawFrame) (tf : String) (t : List Row) :
    load_gold fetch readParquet tf = Except.ok t ↔
      ∃ b f, fetch BUCKET_NAME (object_key tf) = StoreResult.ok b ∧
        readParquet b = some f ∧ "timestamp" ∈ f.colNames ∧
        t = sortByTimestamp f.rows := by
  cases hf : fetch BUCKET_NAME (object_key tf) with
  | notFound => simp [load_gold, hf]
  | connErr => simp [load_gold, hf]
  | ok b =>
    cases hp : readParquet b with
    | none => simp [load_gold, hf, hp]
    | some f =>
      by_cases hc : "timestamp" ∈ f.colNames <;>
        simp [load_gold, hf, hp, hc, eq_comm]

/-- Projection: the daily volatility of the metrics record is the sample
standard deviation of the dropna'd return column. -/
theorem summarize_daily_vol (sq : ℚ → ℚ) (r : Row) (rs : List Row) :
    (summarize sq r rs).daily_vol =
      seriesStd sq (dropna ((r :: rs).map fun x => x.ret)) :=
  rfl

/-- Projection: the annualised volatility is the daily one times `sq 252`. -/
theorem summarize_annual_vol (sq : ℚ → ℚ) (r : Row) (rs : List Row) :
    (summarize sq r rs).annual_vol =
      (seriesStd sq (dropna ((r :: rs).map fun x => x.ret))).map
        fun v => v * sq 252 :=
  rfl

/-- Projection: the displayed multiple is one plus the last row's
`cum_return`. -/
theorem summarize_cumRetMultiple (sq : ℚ → ℚ) (r : Row) (rs : List Row) :
    (summarize sq r rs).cumRetMultiple =
      1 + ((r :: rs).getLast (List.cons_ne_nil r rs)).cum_return :=
  rfl

/-- With at least two samples, `Series.std` is the sample standard
deviation, dividing the squared deviations by `n - 1`. -/
theorem seriesStd_of_two_le (sq : ℚ → ℚ) (xs : List ℚ) (h : 2 ≤ xs.length) :
    seriesStd sq xs = some (sq (sqDev xs / ((xs.length : ℚ) - 1))) := by
  unfold seriesStd
  rw [if_neg (by omega)]

/-- With fewer than two samples, `Series.std` is `NaN`. -/
theorem seriesStd_of_lt_two (sq : ℚ → ℚ) (xs : List ℚ) (h : xs.length < 2) :
    seriesStd sq xs = none := by
  unfold seriesStd
  rw [if_pos h]

/-! ## The claims -/

/-- Claim C1: for every non-empty filtered table, the cumulative-return
multiple shown by the KPI block equals `1 +` the `cum_return` field of the
last row of the filtered (not the full) table. -/
theorem cum_return_multiple_from_filtered_last (sq : ℚ → ℚ) (df : List Row)
    (s e : Date) (h : df_period df s e ≠ []) :
    ∃ m lastRow,
      (df_period df s e).getLast? = some lastRow ∧
      overviewKpis sq (df_period df s e) = Outcome.metrics m ∧
      m.cumRetMultiple = 1 + lastRow.cum_return := by
  obtain ⟨r, rs, hcons⟩ := List.exists_cons_of_ne_nil h
  refine ⟨summarize sq r rs, (r :: rs).getLast (List.cons_ne_nil r rs),
    ?_, ?_, ?_⟩
  · rw [hcons]
    exact List.getLast?_eq_getLast _ _
  · rw [hcons]
    rfl
  · exact summarize_cumRetMultiple sq r rs

/-- Witness for C1 on the specification's three-row test vector with the
full range selected. -/
theorem cum_return_multiple_from_filtered_last_witness :
    ∃ m lastRow,
      (df_period [sRow1, sRow2, sRow3] 0 9).getLast? = some lastRow ∧
      overviewKpis id (df_period [sRow1, sRow2, sRow3] 0 9) =
        Outcome.metrics m ∧
      m.cumRetMultiple = 1 + lastRow.cum_return :=
  cum_return_multiple_from_filtered_last id [sRow1, sRow2, sRow3] 0 9
    (by decide)

/-- Claim C2: the period filter keeps exactly the rows whose calendar date
lies in the inclusive range, in original relative order (it is the filter
of the table by the range predicate, hence a sublist), and it is empty iff
no row satisfies the range condition. -/
theorem period_filter_correct (df : List Row) (s e : Date) :
    df_period df s e = df.filter (maskFun s e) ∧
    (∀ r, r ∈ df_period df s e ↔
      r ∈ df ∧ s ≤ r.timestamp.date ∧ r.timestamp.date ≤ e) ∧
    (df_period df s e).Sublist df ∧
    (df_period df s e = [] ↔
      ∀ r ∈ df, ¬(s ≤ r.timestamp.date ∧ r.timestamp.date ≤ e)) := by
  refine ⟨df_period_eq_filter df s e, ?_, ?_, df_period_eq_nil_iff df s e⟩
  · intro r
    rw [df_period_eq_filter, List.mem_filter, maskFun_eq_true_iff]
  · rw [df_period_eq_filter]
    exact List.filter_sublist df

/-- Claim C6: a reversed range (start after end) yields the empty table,
not an error. -/
theorem reversed_range_returns_empty (df : List Row) (s e : Date)
    (h : e < s) : df_period df s e = [] := by
  rw [df_period_eq_nil_iff]
  intro r _ hr
  exact absurd (hr.1.trans hr.2) (not_le.mpr h)

/-- Witness for C6: filtering the sample table with the reversed range
`[9, 3]` yields the empty table. -/
theorem reversed_range_returns_empty_witness :
    df_period [sRow1, sRow2, sRow3] 9 3 = [] :=
  reversed_range_returns_empty [sRow1, sRow2, sRow3] 9 3 (by decide)

/-- Claim C7: the object key is built by inserting the timeframe token
twice, verbatim, into the partition-path scheme; for `"1d"` it is exactly
`"gold/timeframe=1d/XAU_1d_features.parquet"`. -/
theorem object_key_scheme :
    (∀ t, object_key t =
      "gold/timeframe=" ++ t ++ "/XAU_" ++ t ++ "_features.parquet") ∧
    object_key "1d" = "gold/timeframe=1d/XAU_1d_features.parquet" :=
  ⟨fun _ => rfl, by decide⟩

/-- Claim C3: when the selected range matches no row, the KPI block takes
the empty-selection branch — a distinguishable non-error outcome — and the
metrics are never produced. -/
theorem empty_selection_short_circuit (sq : ℚ → ℚ) (df : List Row)
    (s e : Date)
    (h : ∀ r ∈ df, ¬(s ≤ r.timestamp.date ∧ r.timestamp.date ≤ e)) :
    overviewKpis sq (df_period df s e) = Outcome.emptyWarning ∧
    ∀ m, overviewKpis sq (df_period df s e) ≠ Outcome.metrics m := by
  have hnil : df_period df s e = [] := (df_period_eq_nil_iff df s e).mpr h
  rw [hnil]
  exact ⟨rfl, fun m hm => Outcome.noConfusion hm⟩

/-- Witness for C3: a range entirely after the sample table's span yields
the warning outcome. -/
theorem empty_selection_short_circuit_witness :
    overviewKpis id (df_period [sRow1, sRow2, sRow3] 5 9) =
      Outcome.emptyWarning ∧
    ∀ m, overviewKpis id (df_period [sRow1, sRow2, sRow3] 5 9) ≠
      Outcome.metrics m :=
  empty_selection_short_circuit id [sRow1, sRow2, sRow3] 5 9 (by decide)

/-- Claim C4: with at least two non-missing returns in the selection, the
daily volatility is the sample standard deviation of the dropna'd return
column (squared deviations from the mean divided by `n - 1`), and the
annualised volatility is that value multiplied by the square root of 252. -/
theorem annualized_vol_is_sample_std (sq : ℚ → ℚ) (r : Row) (rs : List Row)
    (h : 2 ≤ (dropna ((r :: rs).map fun x => x.ret)).length) :
    (summarize sq r rs).daily_vol =
      some (sq (sqDev (dropna ((r :: rs).map fun x => x.ret)) /
        (((dropna ((r :: rs).map fun x => x.ret)).length : ℚ) - 1))) ∧
    (summarize sq r rs).annual_vol =
      some (sq (sqDev (dropna ((r :: rs).map fun x => x.ret)) /
        (((dropna ((r :: rs).map fun x => x.ret)).length : ℚ) - 1)) *
        sq 252) := by
  constructor
  · rw [summarize_daily_vol, seriesStd_of_two_le _ _ h]
  · rw [summarize_annual_vol, seriesStd_of_two_le _ _ h]
    rfl

/-- Witness for C4 on the specification's three-row test vector (two
non-missing returns). -/
theorem annualized_vol_is_sample_std_witness :
    2 ≤ (dropna ((sRow1 :: [sRow2, sRow3]).map fun x => x.ret)).length ∧
    ((summarize id sRow1 [sRow2, sRow3]).daily_vol =
      some (id (sqDev (dropna ((sRow1 :: [sRow2, sRow3]).map fun x => x.ret)) /
        (((dropna ((sRow1 :: [sRow2, sRow3]).map fun x => x.ret)).length : ℚ)
          - 1))) ∧
    (summarize id sRow1 [sRow2, sRow3]).annual_vol =
      some (id (sqDev (dropna ((sRow1 :: [sRow2, sRow3]).map fun x => x.ret)) /
        (((dropna ((sRow1 :: [sRow2, sRow3]).map fun x => x.ret)).length : ℚ)
          - 1)) * id 252)) :=
  ⟨by decide, annualized_vol_is_sample_std id sRow1 [sRow2, sRow3] (by decide)⟩

/-- Claim C10: on a non-empty selection with fewer than two non-missing
returns, the daily and annualised volatility are `NaN` (`none`), not zero,
while the metrics outcome is still produced with the cumulative-return
multiple and the close extrema computed as usual. -/
theorem under_two_returns_vol_nan (sq : ℚ → ℚ) (r : Row) (rs : List Row)
    (h : (dropna ((r :: rs).map fun x => x.ret)).length < 2) :
    overviewKpis sq (r :: rs) = Outcome.metrics (summarize sq r rs) ∧
    (summarize sq r rs).daily_vol = none ∧
    (summarize sq r rs).annual_vol = none ∧
    (summarize sq r rs).daily_vol ≠ some 0 ∧
    (summarize sq r rs).annual_vol ≠ some 0 ∧
    (summarize sq r rs).cumRetMultiple =
      1 + ((r :: rs).getLast (List.cons_ne_nil r rs)).cum_return ∧
    (summarize sq r rs).close_min =
      List.foldl min r.close (rs.map fun x => x.close) ∧
    (summarize sq r rs).close_max =
      List.foldl max r.close (rs.map fun x => x.close) := by
  have hd : (summarize sq r rs).daily_vol = none := by
    rw [summarize_daily_vol, seriesStd_of_lt_two _ _ h]
  have ha : (summarize sq r rs).annual_vol = none := by
    rw [summarize_annual_vol, seriesStd_of_lt_two _ _ h]
    rfl
  refine ⟨rfl, hd, ha, ?_, ?_, summarize_cumRetMultiple sq r rs, rfl, rfl⟩
  · rw [hd]
    exact Option.noConfusion
  · rw [ha]
    exact Option.noConfusion

/-- Witness for C10: a one-row selection (its only `return` is missing)
still yields the metrics outcome, with `NaN` volatilities. -/
theorem under_two_returns_vol_nan_witness :
    overviewKpis id [sRow1] = Outcome.metrics (summarize id sRow1 []) ∧
    (summarize id sRow1 []).daily_vol = none ∧
    (summarize id sRow1 []).annual_vol = none ∧
    (summarize id sRow1 []).daily_vol ≠ some 0 ∧
    (summarize id sRow1 []).annual_vol ≠ some 0 ∧
    (summarize id sRow1 []).cumRetMultiple =
      1 + (([sRow1]).getLast (List.cons_ne_nil sRow1 [])).cum_return ∧
    (summarize id sRow1 []).close_min =
      List.foldl min sRow1.close (([] : List Row).map fun x => x.close) ∧
    (summarize id sRow1 []).close_max =
      List.foldl max sRow1.close (([] : List Row).map fun x => x.close) :=
  under_two_returns_vol_nan id sRow1 [] (by decide)

/-- Claim C5: every table the loader returns has non-decreasing timestamps
across consecutive rows, whatever the row order in the stored object. -/
theorem loaded_table_sorted {β : Type} (fetch : String → String → StoreResult β)
    (readParquet : β → Option RawFrame) (tf : String) (t : List Row)
    (h : load_gold fetch readParquet tf = Except.ok t) :
    t.Chain' tsRowLe := by
  obtain ⟨b, f, _, _, _, ht⟩ := (load_gold_ok_iff fetch readParquet tf t).mp h
  subst ht
  exact List.Pairwise.chain' (List.sorted_insertionSort tsRowLe f.rows)

/-- Witness for C5: loading a store whose object decodes to rows stored in
reverse chronological order yields a sorted table. -/
theorem loaded_table_sorted_witness :
    List.Chain' tsRowLe (sortByTimestamp [sRow2, sRow1]) :=
  loaded_table_sorted (fun _ _ => StoreResult.ok ())
    (fun _ => some ⟨["timestamp", "close"], [sRow2, sRow1]⟩) "1d"
    (sortByTimestamp [sRow2, sRow1]) rfl

/-- Counterexample to claim C8 as stated: a decodable object whose frame
has a `timestamp` column but no `close` column loads successfully — the
loader returns a table instead of failing with the malformed-data error
the claim requires for a missing `close` column. -/
theorem load_missing_close_not_detected :
    load_gold (fun _ _ => StoreResult.ok ())
      (fun _ => some ⟨["timestamp"], [sRow1]⟩) "1d" =
      Except.ok (sortByTimestamp [sRow1]) ∧
    "close" ∉ (["timestamp"] : List String) := by
  exact ⟨rfl, by decide⟩

/-- Claim C8 (amended): the loader fails with the not-found error exactly
when the store reports the object absent, with the connection error
exactly when the store is unreachable, and with the malformed-data error
exactly when the fetched buffer does not decode or the decoded frame lacks
a `timestamp` column; a missing `close` column is not checked at load
time.  Every success returns the complete decoded row set (sorted), never
an incomplete one. -/
theorem load_error_taxonomy {β : Type} (fetch : String → String → StoreResult β)
    (readParquet : β → Option RawFrame) (tf : String) :
    (load_gold fetch readParquet tf = Except.error LoadError.notFoundError ↔
      fetch BUCKET_NAME (object_key tf) = StoreResult.notFound) ∧
    (load_gold fetch readParquet tf = Except.error LoadError.connectionError ↔
      fetch BUCKET_NAME (object_key tf) = StoreResult.connErr) ∧
    (load_gold fetch readParquet tf = Except.error LoadError.malformedDataError ↔
      ∃ b, fetch BUCKET_NAME (object_key tf) = StoreResult.ok b ∧
        (readParquet b = none ∨
          ∃ f, readParquet b = some f ∧ "timestamp" ∉ f.colNames)) ∧
    (∀ t, load_gold fetch readParquet tf = Except.ok t →
      ∃ b f, fetch BUCKET_NAME (object_key tf) = StoreResult.ok b ∧
        readParquet b = some f ∧ "timestamp" ∈ f.colNames ∧
        t = sortByTimestamp f.rows) := by
  refine ⟨?_, ?_, ?_, fun t => (load_gold_ok_iff fetch readParquet tf t).mp⟩ <;>
    (cases hf : fetch BUCKET_NAME (object_key tf) with
      | notFound => simp [load_gold, hf]
      | connErr => simp [load_gold, hf]
      | ok b =>
        cases hp : readParquet b with
        | none => simp [load_gold, hf, hp]
        | some f =>
          by_cases hc : "timestamp" ∈ f.colNames <;>
            simp [load_gold, hf, hp, hc])

/-- Witness for C8: a store reporting the object absent makes the loader
fail with the not-found error. -/
theorem load_error_taxonomy_witness :
    load_gold (fun _ _ => StoreResult.notFound (β := Unit)) (fun _ => none)
      "1d" = Except.error LoadError.notFoundError :=
  (load_error_taxonomy (fun _ _ => StoreResult.notFound (β := Unit))
    (fun _ => none) "1d").1.mpr rfl

/-- Claim C9: the filter step only reads the loaded frame: after it runs,
`df` is unchanged, and a second filter over the same state gives the same
result as filtering the original table directly — repeated invocations
against the cached table are independent. -/
theorem filter_step_no_mutation (st : ScriptState) (s e : Date) :
    (runFilterStep st s e).df = st.df ∧
    (runFilterStep st s e).period = df_period st.df s e ∧
    ∀ s2 e2, (runFilterStep (runFilterStep st s e) s2 e2).period =
      df_period st.df s2 e2 :=
  ⟨rfl, rfl, fun _ _ => rfl⟩

end XauUsd
